import Mathlib

/-!
Verification development for the Akai MPD218 Mixxx controller script
(src/Akai-MPD218-milkii-scripts.js). The JavaScript is embedded shallowly:
engine values are rationals, wall-clock times are integers (milliseconds),
per-channel NRPN state and LED feedback sessions are explicit records, and
handlers become pure functions from state and inputs to state and emitted
effects (engine writes, LED messages).
-/

namespace MPD218

/-! ## Hardware limits (MPD218.HARDWARE.LIMITS) -/

def MIN_ZOOM : ℚ := 1
def MAX_ZOOM : ℚ := 100

/-! ## Shipped configuration (MPD218.Config) -/

def zoomFast : ℚ := 1
def zoomSlow : ℚ := 1/10
def beatgridSpeed : ℚ := 1
def zoomFeedbackEnabled : Bool := true
def zoomReverseDirection : Bool := true

/-- MPD218.Config.layout, as consumed by generateEncoderMappings:
rotation in degrees, rotation direction (true = clockwise), and the
deck order array. -/
structure LayoutConfig where
  rotation : ℕ
  clockwise : Bool
  deckOrder : Fin 4 → ℕ

/-- The layout settings shipped in MPD218.Config.layout: rotation 90
counterclockwise, deckOrder [3,1,2,4]. -/
def configLayout : LayoutConfig := ⟨90, false, ![3, 1, 2, 4]⟩

/-! ## Encoder mappings (MPD218.generateEncoderMappings) -/

inductive EncoderType
  | zoom
  | superknob
  | beatjump
  | beatgrid
deriving DecidableEq, Repr

/-- One entry of MPD218.EncoderMappings. The deck string
"[ChannelN]" is represented by the number N. -/
structure EncoderMapping where
  type : EncoderType
  deck : ℕ
  speed : ℚ
deriving DecidableEq, Repr

/-- gridToDeckIndex = [0, 3, 1, 2] from generateEncoderMappings. -/
def gridToDeckIndex : Fin 4 → Fin 4 := ![0, 3, 1, 2]

/-- The rotation branch of generateEncoderMappings producing
rotatedGridToDeckIndex. -/
def rotatedGridToDeckIndex (rotation : ℕ) (clockwise : Bool) : Fin 4 → Fin 4 :=
  if rotation = 90 ∧ clockwise = false then
    ![gridToDeckIndex 2, gridToDeckIndex 0, gridToDeckIndex 3, gridToDeckIndex 1]
  else if rotation = 0 then
    gridToDeckIndex
  else if rotation = 180 then
    ![gridToDeckIndex 3, gridToDeckIndex 2, gridToDeckIndex 1, gridToDeckIndex 0]
  else if rotation = 270 ∨ (rotation = 90 ∧ clockwise = true) then
    ![gridToDeckIndex 1, gridToDeckIndex 3, gridToDeckIndex 0, gridToDeckIndex 2]
  else
    gridToDeckIndex

/-- encoderToDeck = rotatedGridToDeckIndex.map(idx => deckOrder[idx]). -/
def encoderToDeck (cfg : LayoutConfig) (i : Fin 4) : ℕ :=
  cfg.deckOrder (rotatedGridToDeckIndex cfg.rotation cfg.clockwise i)

/-- MPD218.generateEncoderMappings: the object literal keyed by MIDI
channel 1..16 (channels 11 and 12 absent). -/
def generateEncoderMappings (cfg : LayoutConfig) (ch : ℕ) : Option EncoderMapping :=
  if ch = 1 then some ⟨EncoderType.zoom, 1, zoomFast⟩
  else if ch = 2 then some ⟨EncoderType.zoom, 1, zoomSlow⟩
  else if ch = 3 then some ⟨EncoderType.superknob, encoderToDeck cfg 0, 4⟩
  else if ch = 4 then some ⟨EncoderType.superknob, encoderToDeck cfg 1, 4⟩
  else if ch = 5 then some ⟨EncoderType.superknob, encoderToDeck cfg 2, 4⟩
  else if ch = 6 then some ⟨EncoderType.superknob, encoderToDeck cfg 3, 4⟩
  else if ch = 7 then some ⟨EncoderType.beatjump, encoderToDeck cfg 0, 1⟩
  else if ch = 8 then some ⟨EncoderType.beatjump, encoderToDeck cfg 1, 1⟩
  else if ch = 9 then some ⟨EncoderType.beatjump, encoderToDeck cfg 2, 1⟩
  else if ch = 10 then some ⟨EncoderType.beatjump, encoderToDeck cfg 3, 1⟩
  else if ch = 13 then some ⟨EncoderType.beatgrid, encoderToDeck cfg 0, beatgridSpeed⟩
  else if ch = 14 then some ⟨EncoderType.beatgrid, encoderToDeck cfg 1, beatgridSpeed⟩
  else if ch = 15 then some ⟨EncoderType.beatgrid, encoderToDeck cfg 2, beatgridSpeed⟩
  else if ch = 16 then some ⟨EncoderType.beatgrid, encoderToDeck cfg 3, beatgridSpeed⟩
  else none

/-- MPD218.EncoderMappings, generated once from the shipped config. -/
def EncoderMappings : ℕ → Option EncoderMapping :=
  generateEncoderMappings configLayout

/-! ## NRPN per-channel state (MPD218.State.nrpnParams and the
MIDIHandlers nrpnMSB / nrpnLSB / nrpnIncrement / nrpnDecrement) -/

/-- One channel entry of MPD218.State.nrpnParams: the last seen msb and
lsb bytes and the resolved parameter (absent fields are none). -/
structure NrpnChannelState where
  msb : Option ℕ
  lsb : Option ℕ
  param : Option ℕ
deriving DecidableEq, Repr

/-- Fresh channel entry: nrpnParams starts as an empty object. -/
def initNrpn : NrpnChannelState := ⟨none, none, none⟩

/-- MIDIHandlers.nrpnMSB: store the msb byte; the parameter is not
recomputed here. -/
def nrpnMSB (s : NrpnChannelState) (v : ℕ) : NrpnChannelState :=
  { s with msb := some v }

/-- MIDIHandlers.nrpnLSB: store the lsb byte and, when an msb has been
received, call Controllers.handleNRPN.setParameter which stores
(msb <<< 7) ||| lsb unconditionally (no null-reset branch). -/
def nrpnLSB (s : NrpnChannelState) (v : ℕ) : NrpnChannelState :=
  match s.msb with
  | some m => { s with lsb := some v, param := some ((m <<< 7) ||| v) }
  | none => { s with lsb := some v }

/-- The four NRPN control-change messages on one channel. -/
inductive CcMsg
  | ccMSB (v : ℕ)
  | ccLSB (v : ℕ)
  | ccInc (v : ℕ)
  | ccDec (v : ℕ)
deriving DecidableEq, Repr

/-- Effect of one message on the channel NRPN record (increment and
decrement handlers do not touch nrpnParams). -/
def stateStep (s : NrpnChannelState) : CcMsg → NrpnChannelState
  | CcMsg.ccMSB v => nrpnMSB s v
  | CcMsg.ccLSB v => nrpnLSB s v
  | CcMsg.ccInc _ => s
  | CcMsg.ccDec _ => s

/-- Fold a message sequence from the fresh state. -/
def nrpnRun (ms : List CcMsg) : NrpnChannelState :=
  ms.foldl stateStep initNrpn

/-- Value of the last CC99 (msb) message of a sequence, if any. -/
def lastMsb : List CcMsg → Option ℕ
  | [] => none
  | CcMsg.ccMSB v :: rest => (lastMsb rest).or (some v)
  | _ :: rest => lastMsb rest

theorem nrpnLSB_msb (s : NrpnChannelState) (v : ℕ) : (nrpnLSB s v).msb = s.msb := by
  unfold nrpnLSB
  cases s.msb <;> rfl

theorem foldl_stateStep_msb (ms : List CcMsg) :
    ∀ s : NrpnChannelState, (ms.foldl stateStep s).msb = (lastMsb ms).or s.msb := by
  induction ms with
  | nil => intro s; simp [lastMsb]
  | cons m rest ih =>
    intro s
    cases m with
    | ccMSB v =>
      simp only [List.foldl_cons, stateStep, lastMsb, ih, nrpnMSB]
      simp [Option.or_assoc]
    | ccLSB v =>
      simp only [List.foldl_cons, stateStep, lastMsb, ih, nrpnLSB_msb]
    | ccInc v =>
      simp only [List.foldl_cons, stateStep, lastMsb, ih]
    | ccDec v =>
      simp only [List.foldl_cons, stateStep, lastMsb, ih]

theorem nrpnRun_msb (ms : List CcMsg) : (nrpnRun ms).msb = lastMsb ms := by
  have h := foldl_stateStep_msb ms initNrpn
  simpa [nrpnRun, initNrpn] using h

/-- C1 (amended): after every CC98 (lsb) message on a channel that has
already received a CC99 (msb), the stored parameter equals
(last_msb <<< 7) ||| lsb, with no exception for the pair (127,127); a
CC99 message alone never changes the stored parameter. -/
theorem c1_amended :
    (∀ (ms : List CcMsg) (v m : ℕ), lastMsb ms = some m →
        (nrpnRun (ms ++ [CcMsg.ccLSB v])).param = some ((m <<< 7) ||| v))
    ∧ (∀ (ms : List CcMsg) (v : ℕ),
        (nrpnRun (ms ++ [CcMsg.ccMSB v])).param = (nrpnRun ms).param) := by
  constructor
  · intro ms v m hm
    have hmsb : (nrpnRun ms).msb = some m := by rw [nrpnRun_msb, hm]
    simp only [nrpnRun, List.foldl_append, List.foldl_cons, List.foldl_nil]
    show (stateStep (nrpnRun ms) (CcMsg.ccLSB v)).param = some ((m <<< 7) ||| v)
    simp [stateStep, nrpnLSB, hmsb]
  · intro ms v
    simp only [nrpnRun, List.foldl_append, List.foldl_cons, List.foldl_nil]
    show (stateStep (nrpnRun ms) (CcMsg.ccMSB v)).param = (nrpnRun ms).param
    simp [stateStep, nrpnMSB]

/-- Witness for c1_amended at the sequence [msb 5, lsb 3]. -/
theorem c1_witness :
    (nrpnRun ([CcMsg.ccMSB 5] ++ [CcMsg.ccLSB 3])).param = some ((5 <<< 7) ||| 3) :=
  c1_amended.1 [CcMsg.ccMSB 5] 3 5 (by decide)

/-- C1 counterexample: immediately after the pair (127,127) the stored
parameter is 16383, not cleared to none. -/
theorem c1_counterexample :
    (nrpnRun [CcMsg.ccMSB 127, CcMsg.ccLSB 127]).param = some 16383
    ∧ (nrpnRun [CcMsg.ccMSB 127, CcMsg.ccLSB 127]).param ≠ none := by
  decide

/-! ## Beat-jump rate tracker (MPD218.State.beatjumpRate and the rate
portion of Controllers.handleNRPN.handleBeatJump) -/

/-- Per-deck beatjump rate state: last increment time (absent before the
first tick) and the current jump multiplier. -/
structure BeatjumpRateState where
  lastTime : Option ℤ
  multiplier : ℕ
deriving DecidableEq, Repr

/-- Fresh rate state: MPD218.State.beatjumpRate starts with empty maps. -/
def initBeatjumpRate : BeatjumpRateState := ⟨none, 1⟩

/-- The rate-tracking head of handleBeatJump: initialize lastTime and
multiplier on the first tick, compute the inter-tick interval, update
the multiplier along the 50/100/150 ms thresholds, and return the new
state together with the beatSize used for this tick. -/
def beatjumpRateStep (s : BeatjumpRateState) (now : ℤ) : BeatjumpRateState × ℕ :=
  let lastTime : ℤ := match s.lastTime with
    | none => now
    | some t => t
  let mult : ℕ := match s.lastTime with
    | none => 1
    | some _ => s.multiplier
  let dt : ℤ := now - lastTime
  let mult2 : ℕ :=
    if dt < 50 then
      if mult < 2 then 2 else if mult < 4 then 4 else 8
    else if dt < 100 then
      if mult < 2 then 2 else mult
    else if dt > 150 then 1
    else mult
  (⟨some now, mult2⟩, mult2)

/-- Fold beatjumpRateStep over a list of tick times, collecting the
beat sizes used at each tick. -/
def beatjumpSizes (ts : List ℤ) : List ℕ :=
  (ts.foldl (fun acc t =>
    let r := beatjumpRateStep acc.1 t
    (r.1, acc.2 ++ [r.2])) (initBeatjumpRate, ([] : List ℕ))).2

/-- C2 (amended): the very first tick for a deck is processed with an
inter-tick interval of 0 ms, so it escalates the multiplier from 1 to 2
and jumps by 2 beats; subsequent ticks below 50 ms escalate one step
along 2 to 4 to 8, so ticks at 10 ms intervals yield the size sequence
[2,4,8,8,8,8] over six ticks, while ticks at 200 ms intervals use size
2 on the first tick and size 1 on every later tick. -/
theorem c2_amended :
    (∀ now : ℤ, (beatjumpRateStep initBeatjumpRate now).2 = 2
        ∧ (beatjumpRateStep initBeatjumpRate now).1.multiplier = 2)
    ∧ beatjumpSizes [0, 10, 20, 30, 40, 50] = [2, 4, 8, 8, 8, 8]
    ∧ beatjumpSizes [0, 200, 400, 600, 800] = [2, 1, 1, 1, 1] := by
  refine ⟨?_, by decide, by decide⟩
  intro now
  simp [beatjumpRateStep, initBeatjumpRate]

/-- C2 counterexample: on the very first tick the multiplier does not
stay at 1 - the code treats the missing previous timestamp as a 0 ms
interval and escalates to 2, and a 200 ms tick train is not all ones. -/
theorem c2_counterexample :
    (beatjumpRateStep initBeatjumpRate 1000).2 = 2
    ∧ (beatjumpRateStep initBeatjumpRate 1000).1.multiplier ≠ 1
    ∧ beatjumpSizes [0, 200] ≠ [1, 1] := by
  decide

/-! ## Beat-jump emission (the boundary-check tail of
Controllers.handleNRPN.handleBeatJump) -/

/-- Engine effects performed by the motion handlers. The deck string
"[ChannelN]" is represented by the number N. -/
inductive Effect
  | setValue (deck : ℕ) (control : String) (value : ℚ)
  | showZoomFeedback (deck : ℕ) (value : ℚ)
deriving DecidableEq, Repr

/-- newTime = currentPos * trackDuration + beatSize * (60 / bpm) * direction
as computed inside handleBeatJump. -/
def beatjumpNewTime (beatSize : ℕ) (direction : ℤ) (pos dur bpm : ℚ) : ℚ :=
  pos * dur + (beatSize : ℚ) * (60 / bpm) * (direction : ℚ)

/-- The pulse control chosen by handleBeatJump. -/
def beatjumpPulseControl (direction : ℤ) : String :=
  if 0 < direction then "beatjump_forward" else "beatjump_backward"

/-- Recognizes a beatjump pulse write. -/
def isBeatjumpPulse : Effect → Bool
  | Effect.setValue _ c _ => c == "beatjump_forward" || c == "beatjump_backward"
  | _ => false

/-- Recognizes a beatjump_size write. -/
def isBeatjumpSizeWrite : Effect → Bool
  | Effect.setValue _ c _ => c == "beatjump_size"
  | _ => false

/-- The engine writes performed by the tail of handleBeatJump, given the
beat size chosen by the rate tracker: boundary check when bpm and
duration are valid, clamping to playposition 0 or 0.999 on overshoot,
unconditional pulse otherwise. -/
def handleBeatJumpEffects (deck beatSize : ℕ) (direction : ℤ) (pos dur bpm : ℚ) :
    List Effect :=
  let newTime := beatjumpNewTime beatSize direction pos dur bpm
  if 0 < bpm ∧ 0 < dur then
    if 0 ≤ newTime ∧ newTime ≤ dur then
      [Effect.setValue deck "beatjump_size" (beatSize : ℚ),
       Effect.setValue deck (beatjumpPulseControl direction) 1]
    else if newTime < 0 then
      [Effect.setValue deck "playposition" 0]
    else
      [Effect.setValue deck "playposition" (999/1000)]
  else
    [Effect.setValue deck "beatjump_size" (beatSize : ℚ),
     Effect.setValue deck (beatjumpPulseControl direction) 1]

/-- C5: with valid bpm and duration, a single pulse of the current beat
size is emitted when the jump stays inside the track, the transport is
clamped (and no pulse emitted) when it would cross a boundary, and the
pulse is emitted unconditionally when bpm or duration is unavailable. -/
theorem c5_theorem (deck beatSize : ℕ) (direction : ℤ) (pos dur bpm : ℚ) :
    (0 < bpm → 0 < dur →
      0 ≤ beatjumpNewTime beatSize direction pos dur bpm →
      beatjumpNewTime beatSize direction pos dur bpm ≤ dur →
      handleBeatJumpEffects deck beatSize direction pos dur bpm =
        [Effect.setValue deck "beatjump_size" (beatSize : ℚ),
         Effect.setValue deck (beatjumpPulseControl direction) 1]
      ∧ (handleBeatJumpEffects deck beatSize direction pos dur bpm).countP isBeatjumpPulse = 1)
    ∧ (0 < bpm → 0 < dur →
      ¬(0 ≤ beatjumpNewTime beatSize direction pos dur bpm
          ∧ beatjumpNewTime beatSize direction pos dur bpm ≤ dur) →
      (handleBeatJumpEffects deck beatSize direction pos dur bpm).countP isBeatjumpPulse = 0
      ∧ handleBeatJumpEffects deck beatSize direction pos dur bpm =
        [Effect.setValue deck "playposition"
          (if beatjumpNewTime beatSize direction pos dur bpm < 0 then 0 else 999/1000)])
    ∧ (¬(0 < bpm ∧ 0 < dur) →
      handleBeatJumpEffects deck beatSize direction pos dur bpm =
        [Effect.setValue deck "beatjump_size" (beatSize : ℚ),
         Effect.setValue deck (beatjumpPulseControl direction) 1]
      ∧ (handleBeatJumpEffects deck beatSize direction pos dur bpm).countP isBeatjumpPulse = 1) := by
  refine ⟨?_, ?_, ?_⟩
  · intro hb hd h0 h1
    rw [handleBeatJumpEffects, if_pos ⟨hb, hd⟩, if_pos ⟨h0, h1⟩]
    refine ⟨rfl, ?_⟩
    unfold beatjumpPulseControl
    by_cases hdir : 0 < direction <;>
      simp [hdir, List.countP_cons, isBeatjumpPulse]
  · intro hb hd hout
    rw [handleBeatJumpEffects, if_pos ⟨hb, hd⟩, if_neg hout]
    by_cases hneg : beatjumpNewTime beatSize direction pos dur bpm < 0
    · rw [if_pos hneg, if_pos hneg]
      simp [List.countP_cons, isBeatjumpPulse]
    · rw [if_neg hneg, if_neg hneg]
      simp [List.countP_cons, isBeatjumpPulse]
  · intro hno
    rw [handleBeatJumpEffects, if_neg hno]
    refine ⟨rfl, ?_⟩
    unfold beatjumpPulseControl
    by_cases hdir : 0 < direction <;>
      simp [hdir, List.countP_cons, isBeatjumpPulse]

/-- Witness for c5_theorem: an in-bounds forward jump of 4 beats. -/
theorem c5_witness :
    handleBeatJumpEffects 1 4 1 0 100 60 =
      [Effect.setValue 1 "beatjump_size" 4,
       Effect.setValue 1 (beatjumpPulseControl 1) 1]
    ∧ (handleBeatJumpEffects 1 4 1 0 100 60).countP isBeatjumpPulse = 1 :=
  (c5_theorem 1 4 1 0 100 60).1 (by norm_num) (by norm_num)
    (by norm_num [beatjumpNewTime]) (by norm_num [beatjumpNewTime])

/-- C9: with valid bpm and duration, overshooting the track end sets
playposition to exactly 999/1000 (and nothing else), overshooting the
start sets it to exactly 0; in both cases no beatjump pulse and no
beatjump_size write occur. -/
theorem c9_theorem (deck beatSize : ℕ) (direction : ℤ) (pos dur bpm : ℚ)
    (hb : 0 < bpm) (hd : 0 < dur) :
    (dur < beatjumpNewTime beatSize direction pos dur bpm →
      handleBeatJumpEffects deck beatSize direction pos dur bpm =
        [Effect.setValue deck "playposition" (999/1000)]
      ∧ (handleBeatJumpEffects deck beatSize direction pos dur bpm).countP isBeatjumpPulse = 0
      ∧ (handleBeatJumpEffects deck beatSize direction pos dur bpm).countP isBeatjumpSizeWrite = 0)
    ∧ (beatjumpNewTime beatSize direction pos dur bpm < 0 →
      handleBeatJumpEffects deck beatSize direction pos dur bpm =
        [Effect.setValue deck "playposition" 0]
      ∧ (handleBeatJumpEffects deck beatSize direction pos dur bpm).countP isBeatjumpPulse = 0
      ∧ (handleBeatJumpEffects deck beatSize direction pos dur bpm).countP isBeatjumpSizeWrite = 0) := by
  constructor
  · intro hover
    have hout : ¬(0 ≤ beatjumpNewTime beatSize direction pos dur bpm
        ∧ beatjumpNewTime beatSize direction pos dur bpm ≤ dur) := by
      intro h
      exact absurd hover (not_lt.mpr h.2)
    have hneg : ¬ beatjumpNewTime beatSize direction pos dur bpm < 0 := by
      have : (0 : ℚ) < beatjumpNewTime beatSize direction pos dur bpm := lt_trans hd hover
      exact not_lt.mpr (le_of_lt this)
    rw [handleBeatJumpEffects, if_pos ⟨hb, hd⟩, if_neg hout, if_neg hneg]
    refine ⟨rfl, ?_, ?_⟩ <;> simp [List.countP_cons, isBeatjumpPulse, isBeatjumpSizeWrite]
  · intro hneg
    have hout : ¬(0 ≤ beatjumpNewTime beatSize direction pos dur bpm
        ∧ beatjumpNewTime beatSize direction pos dur bpm ≤ dur) := by
      intro h
      exact absurd hneg (not_lt.mpr h.1)
    rw [handleBeatJumpEffects, if_pos ⟨hb, hd⟩, if_neg hout, if_pos hneg]
    refine ⟨rfl, ?_, ?_⟩ <;> simp [List.countP_cons, isBeatjumpPulse, isBeatjumpSizeWrite]

/-- Witness for c9_theorem: jumping 4 beats forward from the track end
overshoots and clamps to 999/1000. -/
theorem c9_witness :
    handleBeatJumpEffects 1 4 1 1 100 60 =
      [Effect.setValue 1 "playposition" (999/1000)]
    ∧ (handleBeatJumpEffects 1 4 1 1 100 60).countP isBeatjumpPulse = 0
    ∧ (handleBeatJumpEffects 1 4 1 1 100 60).countP isBeatjumpSizeWrite = 0 :=
  (c9_theorem 1 4 1 1 100 60 (by norm_num) (by norm_num)).1
    (by norm_num [beatjumpNewTime])

/-! ## Zoom handler (Controllers.handleNRPN.handleZoom) -/

/-- actualDirection in handleZoom: the raw direction, negated when the
zoomFeedback.reverseDirection config flag is set. -/
def actualDir (rev : Bool) (direction : ℤ) : ℚ :=
  if rev then -(direction : ℚ) else (direction : ℚ)

/-- The new waveform zoom computed by handleZoom: optional direction
reversal, multiplicative factor 1 + actualDirection * speed * 0.05, and
clamping into [MIN_ZOOM, MAX_ZOOM]. -/
def zoomNew (rev : Bool) (current : ℚ) (direction : ℤ) (speed : ℚ) : ℚ :=
  max MIN_ZOOM (min MAX_ZOOM (current * (1 + actualDir rev direction * speed * (5/100))))

/-- The engine effects of handleZoom: write the new zoom, then show the
zoom feedback when the zoomFeedback.enabled config flag is set. -/
def handleZoomEffects (rev enabled : Bool) (deck : ℕ) (current : ℚ)
    (direction : ℤ) (speed : ℚ) : List Effect :=
  [Effect.setValue deck "waveform_zoom" (zoomNew rev current direction speed)]
    ++ (if enabled then [Effect.showZoomFeedback deck (zoomNew rev current direction speed)]
        else [])

/-- Spec-side clamp, following the words of the spec: clamp(x, lo, hi). -/
def clampSpec (x lo hi : ℚ) : ℚ := max lo (min hi x)

/-- An increment immediately followed by a decrement of the same
magnitude * speed, as in the claim about no-op turns. -/
def zoomRoundTrip (rev : Bool) (z speed : ℚ) : ℚ :=
  zoomNew rev (zoomNew rev z 1 speed) (-1) speed

theorem zoomNew_unclamped (rev : Bool) (z : ℚ) (d : ℤ) (s : ℚ)
    (h1 : 1 ≤ z * (1 + actualDir rev d * s * (5/100)))
    (h2 : z * (1 + actualDir rev d * s * (5/100)) ≤ 100) :
    zoomNew rev z d s = z * (1 + actualDir rev d * s * (5/100)) := by
  have hdef : zoomNew rev z d s
      = max 1 (min 100 (z * (1 + actualDir rev d * s * (5/100)))) := rfl
  rw [hdef, min_eq_right h2, max_eq_right h1]

/-- C3 (amended): an increment followed by a decrement with the same
magnitude * speed s does not restore the zoom; when no clamping occurs
it multiplies the pre-turn zoom by (1 - (s * 0.05)^2), which is
strictly below the pre-turn value whenever s and z are positive. -/
theorem c3_amended (rev : Bool) (z s : ℚ)
    (hIncLo : 1 ≤ z * (1 + s * (5/100))) (hIncHi : z * (1 + s * (5/100)) ≤ 100)
    (hDecLo : 1 ≤ z * (1 - s * (5/100))) (hDecHi : z * (1 - s * (5/100)) ≤ 100)
    (hFinLo : 1 ≤ z * (1 - (s * (5/100))^2)) (hFinHi : z * (1 - (s * (5/100))^2) ≤ 100) :
    zoomRoundTrip rev z s = z * (1 - (s * (5/100))^2)
    ∧ (0 < s → 0 < z → zoomRoundTrip rev z s < z) := by
  have key : zoomRoundTrip rev z s = z * (1 - (s * (5/100))^2) := by
    cases rev with
    | false =>
      have a1 : actualDir false 1 = 1 := by norm_num [actualDir]
      have a2 : actualDir false (-1) = -1 := by norm_num [actualDir]
      have e1 : z * (1 + actualDir false 1 * s * (5/100)) = z * (1 + s * (5/100)) := by
        rw [a1]; ring
      have step1 : zoomNew false z 1 s = z * (1 + s * (5/100)) := by
        rw [zoomNew_unclamped false z 1 s (by rw [e1]; exact hIncLo) (by rw [e1]; exact hIncHi)]
        rw [e1]
      have e2 : z * (1 + s * (5/100)) * (1 + actualDir false (-1) * s * (5/100))
          = z * (1 - (s * (5/100))^2) := by rw [a2]; ring
      unfold zoomRoundTrip
      rw [step1]
      rw [zoomNew_unclamped false (z * (1 + s * (5/100))) (-1) s
        (by rw [e2]; exact hFinLo) (by rw [e2]; exact hFinHi)]
      rw [e2]
    | true =>
      have a1 : actualDir true 1 = -1 := by norm_num [actualDir]
      have a2 : actualDir true (-1) = 1 := by norm_num [actualDir]
      have e1 : z * (1 + actualDir true 1 * s * (5/100)) = z * (1 - s * (5/100)) := by
        rw [a1]; ring
      have step1 : zoomNew true z 1 s = z * (1 - s * (5/100)) := by
        rw [zoomNew_unclamped true z 1 s (by rw [e1]; exact hDecLo) (by rw [e1]; exact hDecHi)]
        rw [e1]
      have e2 : z * (1 - s * (5/100)) * (1 + actualDir true (-1) * s * (5/100))
          = z * (1 - (s * (5/100))^2) := by rw [a2]; ring
      unfold zoomRoundTrip
      rw [step1]
      rw [zoomNew_unclamped true (z * (1 - s * (5/100))) (-1) s
        (by rw [e2]; exact hFinLo) (by rw [e2]; exact hFinHi)]
      rw [e2]
  refine ⟨key, ?_⟩
  intro hs hz
  rw [key]
  nlinarith [sq_nonneg (s * (5/100)), mul_pos hs hs]

/-- Witness for c3_amended: starting zoom 10, magnitude * speed 1, with
the shipped reversed direction; the round trip lands on 9.975. -/
theorem c3_witness :
    zoomRoundTrip true 10 1 = 10 * (1 - ((1 : ℚ) * (5/100))^2)
    ∧ (0 < (1 : ℚ) → 0 < (10 : ℚ) → zoomRoundTrip true 10 1 < 10) :=
  c3_amended true 10 1 (by norm_num) (by norm_num) (by norm_num) (by norm_num)
    (by norm_num) (by norm_num)

/-- C3 counterexample: from zoom 10 (strictly inside the clamp bounds),
an increment then a decrement with magnitude * speed 1 ends at 399/40 =
9.975, not back at 10. -/
theorem c3_counterexample :
    zoomRoundTrip true 10 1 = 399/40
    ∧ zoomRoundTrip true 10 1 ≠ 10
    ∧ MIN_ZOOM < 10 ∧ (10 : ℚ) < MAX_ZOOM := by
  refine ⟨?_, ?_, ?_, ?_⟩ <;>
    norm_num [zoomRoundTrip, zoomNew, actualDir, MIN_ZOOM, MAX_ZOOM]

/-- C4: for every zoom motion event (any direction-reversal setting,
with the shipped zoomFeedback.enabled flag), handleZoom writes back
clamp(z * (1 + reversedDirection * speed * 0.05), MIN_ZOOM, MAX_ZOOM)
with MIN_ZOOM = 1 and MAX_ZOOM = 100, and triggers the zoom
visualization with exactly the written-back value. -/
theorem c4_theorem (rev : Bool) (deck : ℕ) (z : ℚ) (direction : ℤ) (speed : ℚ) :
    handleZoomEffects rev zoomFeedbackEnabled deck z direction speed =
      [Effect.setValue deck "waveform_zoom"
        (clampSpec (z * (1 + actualDir rev direction * speed * (5/100))) MIN_ZOOM MAX_ZOOM),
       Effect.showZoomFeedback deck
        (clampSpec (z * (1 + actualDir rev direction * speed * (5/100))) MIN_ZOOM MAX_ZOOM)]
    ∧ MIN_ZOOM = 1 ∧ MAX_ZOOM = 100 := by
  refine ⟨?_, rfl, rfl⟩
  simp [handleZoomEffects, zoomNew, clampSpec, zoomFeedbackEnabled]

/-! ## Motion dispatch (Controllers.handleNRPN.processMotion via the
nrpnIncrement / nrpnDecrement MIDI handlers) -/

/-- The invocation handed to an action handler by processMotion:
mapping type, target deck, direction (+1 increment, -1 decrement) and
speed = value * (mapping.speed, or 1.0 when that is falsy). -/
structure MotionDispatch where
  type : EncoderType
  deck : ℕ
  direction : ℤ
  speed : ℚ
deriving DecidableEq, Repr

/-- Controllers.handleNRPN.processMotion: look up the channel in
EncoderMappings (no-op when absent) and forward the motion; the
per-channel NRPN parameter state is not consulted. -/
def processMotion (ch : ℕ) (increment : Bool) (value : ℕ) : Option MotionDispatch :=
  match EncoderMappings ch with
  | none => none
  | some m =>
      some ⟨m.type, m.deck, if increment then 1 else -1,
        (value : ℚ) * (if m.speed = 0 then 1 else m.speed)⟩

/-- One step of the MIDIHandlers routing for a channel: CC99/CC98 update
the NRPN record and dispatch nothing; CC96/CC97 leave the record
untouched and dispatch through processMotion. -/
def handlerStep (ch : ℕ) (s : NrpnChannelState) : CcMsg → NrpnChannelState × Option MotionDispatch
  | CcMsg.ccMSB v => (nrpnMSB s v, none)
  | CcMsg.ccLSB v => (nrpnLSB s v, none)
  | CcMsg.ccInc v => (s, processMotion ch true v)
  | CcMsg.ccDec v => (s, processMotion ch false v)

/-- The motion message of the given direction. -/
def motionMsg (increment : Bool) (v : ℕ) : CcMsg :=
  if increment then CcMsg.ccInc v else CcMsg.ccDec v

/-- C6: a motion message on a channel with an encoder mapping is always
dispatched to the mapped action - the dispatch result is independent of
the channel's NRPN parameter state (which the motion path neither reads
nor writes), so a motion arriving right after the pair (127,127) and
before any new msb/lsb pair is forwarded rather than dropped. -/
theorem c6_theorem (ch value : ℕ) (s t : NrpnChannelState) (increment : Bool) :
    (handlerStep ch s (motionMsg increment value)).2
      = (handlerStep ch t (motionMsg increment value)).2
    ∧ (handlerStep ch s (motionMsg increment value)).1 = s
    ∧ ∀ m : EncoderMapping, EncoderMappings ch = some m →
        (handlerStep ch s (motionMsg increment value)).2 =
          some ⟨m.type, m.deck, if increment then 1 else -1,
            (value : ℚ) * (if m.speed = 0 then 1 else m.speed)⟩ := by
  cases increment <;>
    refine ⟨rfl, rfl, ?_⟩ <;>
    · intro m hm
      simp [handlerStep, motionMsg, processMotion, hm]

/-- Witness for c6_theorem, realizing the claim's scenario: on channel 5
(mapped to the superknob of deck 2 in the shipped layout), an increment
arriving right after the NRPN pair (127,127) is still dispatched. -/
theorem c6_witness :
    (handlerStep 5 (nrpnRun [CcMsg.ccMSB 127, CcMsg.ccLSB 127])
        (motionMsg true 1)).2
      = some ⟨EncoderType.superknob, 2, 1, 4⟩ := by
  have hmap : EncoderMappings 5 = some ⟨EncoderType.superknob, 2, 4⟩ := rfl
  have h := (c6_theorem 5 1 (nrpnRun [CcMsg.ccMSB 127, CcMsg.ccLSB 127]) initNrpn true).2.2
    ⟨EncoderType.superknob, 2, 4⟩ hmap
  norm_num at h
  exact h

/-- C10: for every layout configuration (rotation, rotation direction,
deck order), channels 1 and 2 map to the zoom action on deck
[Channel1] with the fast and slow zoom speeds, and the layout only
affects which deck each of the remaining channels targets - the action
type and speed of every channel are layout-independent. -/
theorem c10_theorem (cfg cfg2 : LayoutConfig) :
    generateEncoderMappings cfg 1 = some ⟨EncoderType.zoom, 1, zoomFast⟩
    ∧ generateEncoderMappings cfg 2 = some ⟨EncoderType.zoom, 1, zoomSlow⟩
    ∧ ∀ ch : ℕ,
        Option.map (fun m => (m.type, m.speed)) (generateEncoderMappings cfg ch)
          = Option.map (fun m => (m.type, m.speed)) (generateEncoderMappings cfg2 ch) := by
  refine ⟨rfl, rfl, ?_⟩
  intro ch
  rcases Nat.lt_or_ge ch 17 with h | h
  · interval_cases ch <;> rfl
  · have e1 : ¬ ch = 1 := by omega
    have e2 : ¬ ch = 2 := by omega
    have e3 : ¬ ch = 3 := by omega
    have e4 : ¬ ch = 4 := by omega
    have e5 : ¬ ch = 5 := by omega
    have e6 : ¬ ch = 6 := by omega
    have e7 : ¬ ch = 7 := by omega
    have e8 : ¬ ch = 8 := by omega
    have e9 : ¬ ch = 9 := by omega
    have e10 : ¬ ch = 10 := by omega
    have e13 : ¬ ch = 13 := by omega
    have e14 : ¬ ch = 14 := by omega
    have e15 : ¬ ch = 15 := by omega
    have e16 : ¬ ch = 16 := by omega
    simp only [generateEncoderMappings, if_neg e1, if_neg e2, if_neg e3, if_neg e4,
      if_neg e5, if_neg e6, if_neg e7, if_neg e8, if_neg e9, if_neg e10,
      if_neg e13, if_neg e14, if_neg e15, if_neg e16, Option.map_none]

/-! ## Pad layout (MPD218.HARDWARE.PAD_NOTES, LayoutGenerator.rotateGrid,
MPD218.PadLayout, LEDManager.getBottomLeftToTopRightOrder) -/

/-- LayoutGenerator.PHYSICAL_GRID: the four pad note rows, top row
first, as manufactured. -/
def PHYSICAL_GRID : List (List ℕ) :=
  [[0x30, 0x31, 0x32, 0x33],
   [0x2C, 0x2D, 0x2E, 0x2F],
   [0x28, 0x29, 0x2A, 0x2B],
   [0x24, 0x25, 0x26, 0x27]]

/-- One clockwise quarter turn of rotateGrid: column col of the grid,
rows taken bottom to top. -/
def rotateCW (g : List (List ℕ)) : List (List ℕ) :=
  (List.range (g.headD []).length).map fun col =>
    g.reverse.map fun row => row.getD col 0

/-- One counterclockwise quarter turn of rotateGrid: columns taken
right to left, rows top to bottom. -/
def rotateCCW (g : List (List ℕ)) : List (List ℕ) :=
  ((List.range (g.headD []).length).reverse).map fun col =>
    g.map fun row => row.getD col 0

/-- LayoutGenerator.rotateGrid: iterate the quarter turn
(degrees / 90) mod 4 times. -/
def rotateGrid (g : List (List ℕ)) (degrees : ℕ) (clockwise : Bool) : List (List ℕ) :=
  (if clockwise then rotateCW else rotateCCW)^[degrees / 90 % 4] g

/-- MPD218.PadLayout.GRID, generated from the shipped layout config. -/
def padGRID : List (List ℕ) :=
  rotateGrid PHYSICAL_GRID configLayout.rotation configLayout.clockwise

/-- MPD218.PadLayout.NOTES: the rotated grid flattened row by row. -/
def allPadNotes : List ℕ := padGRID.flatten

/-- LEDManager.getBottomLeftToTopRightOrder: rows from last to first,
each left to right. -/
def getBottomLeftToTopRightOrder (g : List (List ℕ)) : List ℕ :=
  g.reverse.flatten

/-- The reverse traversal used by showSuperknobFeedback for values at or
above center: rows top to bottom, each right to left. -/
def getTopRightToBottomLeftOrder (g : List (List ℕ)) : List ℕ :=
  (g.map List.reverse).flatten

/-! ## LED feedback sessions (MPD218.State.zoomFeedback,
MPD218.State.superknobFeedback, LEDManager.showZoomFeedback,
LEDManager.showSuperknobFeedback) -/

/-- A raw LED message to one pad: note on (lit) or note off. -/
inductive LedMsg
  | ledOn (note : ℕ)
  | ledOff (note : ℕ)
deriving DecidableEq, Repr

/-- The differential update of both show functions: turn off the pads
in the old lit set missing from the target set, then turn on the pads
in the target set missing from the old lit set (object keys iterate in
ascending numeric order). -/
def diffMsgs (S T : Finset ℕ) : List LedMsg :=
  ((S \ T).sort (· ≤ ·)).map LedMsg.ledOff ++ ((T \ S).sort (· ≤ ·)).map LedMsg.ledOn

/-- MPD218.State.zoomFeedback: active flag, deck, last shown level
(clamped step count) and the currently lit pads. -/
structure ZoomFeedbackState where
  active : Bool
  deck : Option ℕ
  lastLevel : Option ℤ
  lit : Finset ℕ
deriving DecidableEq

/-- Fresh zoom feedback state. -/
def initZoomFeedback : ZoomFeedbackState := ⟨false, none, none, ∅⟩

/-- clampedSteps in showZoomFeedback:
max(0, min(15, floor((zoom - MIN) / (MAX - MIN) * 16))). -/
def zoomSteps (v : ℚ) : ℤ :=
  max 0 (min 15 ⌊(v - MIN_ZOOM) / (MAX_ZOOM - MIN_ZOOM) * 16⌋)

/-- The target pad set of showZoomFeedback: the first clampedSteps + 1
pads in bottom-left to top-right order. -/
def zoomTarget (v : ℚ) : Finset ℕ :=
  ((getBottomLeftToTopRightOrder padGRID).take ((zoomSteps v).toNat + 1)).toFinset

/-- LEDManager.showZoomFeedback as a pure step: same level on the same
deck while active only resets the timer (no messages); otherwise clear
the whole grid when no feedback pads are currently lit, then apply the
differential update towards the target set. -/
def showZoomFeedback (st : ZoomFeedbackState) (deck : ℕ) (v : ℚ) :
    ZoomFeedbackState × List LedMsg :=
  if st.active = true ∧ st.lastLevel = some (zoomSteps v) ∧ st.deck = some deck then
    (st, [])
  else
    (⟨true, some deck, some (zoomSteps v), zoomTarget v⟩,
      (if st.lit = ∅ then allPadNotes.map LedMsg.ledOff else [])
        ++ diffMsgs st.lit (zoomTarget v))

/-- MPD218.State.superknobFeedback: active flag, deck, last shown raw
value and the currently lit pads. -/
structure SuperknobFeedbackState where
  active : Bool
  deck : Option ℕ
  lastValue : Option ℚ
  lit : Finset ℕ
deriving DecidableEq

/-- Fresh superknob feedback state. -/
def initSuperknobFeedback : SuperknobFeedbackState := ⟨false, none, none, ∅⟩

/-- Math.round: round half away from zero towards positive infinity. -/
def jsRound (x : ℚ) : ℤ := ⌊x + 1/2⌋

/-- clampedPads in showSuperknobFeedback:
max(0, min(16, round((1 - |value - 0.5| * 2) * 16))). -/
def superknobPadCount (v : ℚ) : ℤ :=
  max 0 (min 16 (jsRound ((1 - |v - 1/2| * 2) * 16)))

/-- The pad order used by showSuperknobFeedback: bottom-left to
top-right below center, top-right to bottom-left at or above center. -/
def superknobOrderedPads (v : ℚ) : List ℕ :=
  if v < 1/2 then getBottomLeftToTopRightOrder padGRID
  else getTopRightToBottomLeftOrder padGRID

/-- The target pad set of showSuperknobFeedback: the first clampedPads
pads of the direction-dependent order. -/
def superknobTarget (v : ℚ) : Finset ℕ :=
  ((superknobOrderedPads v).take (superknobPadCount v).toNat).toFinset

/-- LEDManager.showSuperknobFeedback as a pure step, analogous to
showZoomFeedback but keyed on the raw value. -/
def showSuperknobFeedback (st : SuperknobFeedbackState) (deck : ℕ) (v : ℚ) :
    SuperknobFeedbackState × List LedMsg :=
  if st.active = true ∧ st.lastValue = some v ∧ st.deck = some deck then
    (st, [])
  else
    (⟨true, some deck, some v, superknobTarget v⟩,
      (if st.lit = ∅ then allPadNotes.map LedMsg.ledOff else [])
        ++ diffMsgs st.lit (superknobTarget v))

/-- C7 (amended): on every show call of an active session whose lit set
is nonempty (the clear-all branch is keyed on the lit set being empty,
not on first activation) and that is not the same-value timer-reset
path, the emitted messages are exactly the differential update: offs
for the old lit pads missing from the target, then ons for the target
pads missing from the old lit set; within a differential update an on
is sent only for pads not previously lit and an off only for pads
previously lit. -/
theorem c7_amended :
    (∀ (st : ZoomFeedbackState) (deck : ℕ) (v : ℚ),
      st.lit ≠ ∅ →
      ¬(st.active = true ∧ st.lastLevel = some (zoomSteps v) ∧ st.deck = some deck) →
      (showZoomFeedback st deck v).2 = diffMsgs st.lit (zoomTarget v))
    ∧ (∀ (st : SuperknobFeedbackState) (deck : ℕ) (v : ℚ),
      st.lit ≠ ∅ →
      ¬(st.active = true ∧ st.lastValue = some v ∧ st.deck = some deck) →
      (showSuperknobFeedback st deck v).2 = diffMsgs st.lit (superknobTarget v))
    ∧ (∀ (S T : Finset ℕ) (n : ℕ),
        (LedMsg.ledOn n ∈ diffMsgs S T ↔ n ∈ T ∧ n ∉ S)
        ∧ (LedMsg.ledOff n ∈ diffMsgs S T ↔ n ∈ S ∧ n ∉ T))
    ∧ (∀ (S T : Finset ℕ),
        diffMsgs S T = ((S \ T).sort (· ≤ ·)).map LedMsg.ledOff
          ++ ((T \ S).sort (· ≤ ·)).map LedMsg.ledOn) := by
  refine ⟨?_, ?_, ?_, fun S T => rfl⟩
  · intro st deck v hlit hne
    rw [showZoomFeedback, if_neg hne]
    simp [hlit]
  · intro st deck v hlit hne
    rw [showSuperknobFeedback, if_neg hne]
    simp [hlit]
  · intro S T n
    constructor
    · simp [diffMsgs, Finset.mem_sort, Finset.mem_sdiff]
    · simp [diffMsgs, Finset.mem_sort, Finset.mem_sdiff]

/-- Witness for c7_amended: a mid-session zoom update from one lit pad
towards the level-7 target emits exactly the differential update. -/
theorem c7_witness :
    (showZoomFeedback ⟨true, some 1, some 0, {48}⟩ 1 50).2
      = diffMsgs {48} (zoomTarget 50) :=
  c7_amended.1 ⟨true, some 1, some 0, {48}⟩ 1 50 (by decide)
    (by
      have h7 : zoomSteps 50 = 7 := by norm_num [zoomSteps, MIN_ZOOM, MAX_ZOOM]
      simp [h7])

/-- C7 counterexample: a superknob session driven through values 1/2,
0, 1/10 stays active with an empty lit set after the second call, and
the third call then re-sends the full-grid clear - an off message for
pad 0x33, which is not lit by the session. -/
theorem c7_counterexample :
    LedMsg.ledOff 0x33 ∈
      (showSuperknobFeedback
        (showSuperknobFeedback
          (showSuperknobFeedback initSuperknobFeedback 1 (1/2)).1 1 0).1 1 (1/10)).2
    ∧ (showSuperknobFeedback
        (showSuperknobFeedback initSuperknobFeedback 1 (1/2)).1 1 0).1.active = true
    ∧ (showSuperknobFeedback
        (showSuperknobFeedback initSuperknobFeedback 1 (1/2)).1 1 0).1.lit = ∅
    ∧ 0x33 ∉ (showSuperknobFeedback
        (showSuperknobFeedback initSuperknobFeedback 1 (1/2)).1 1 0).1.lit := by
  have hcount : superknobPadCount 0 = 0 := by
    norm_num [superknobPadCount, jsRound, abs_of_nonneg]
  have hT0 : superknobTarget 0 = ∅ := by
    simp only [superknobTarget, hcount]
    rfl
  have e1 : (showSuperknobFeedback initSuperknobFeedback 1 (1/2)).1
      = ⟨true, some 1, some (1/2), superknobTarget (1/2)⟩ := by
    simp [showSuperknobFeedback, initSuperknobFeedback]
  have e2 : (showSuperknobFeedback
      (⟨true, some 1, some (1/2), superknobTarget (1/2)⟩ : SuperknobFeedbackState) 1 0).1
      = ⟨true, some 1, some 0, superknobTarget 0⟩ := by
    norm_num [showSuperknobFeedback]
  have e3 : (showSuperknobFeedback
      (⟨true, some 1, some 0, superknobTarget 0⟩ : SuperknobFeedbackState) 1 (1/10)).2
      = (if superknobTarget 0 = ∅ then allPadNotes.map LedMsg.ledOff else [])
        ++ diffMsgs (superknobTarget 0) (superknobTarget (1/10)) := by
    norm_num [showSuperknobFeedback]
  rw [e1, e2, e3, hT0, if_pos rfl]
  refine ⟨?_, rfl, rfl, by simp⟩
  rw [List.mem_append]
  left
  decide

/-- C8: the zoom feedback target is the first clampedSteps + 1 pads in
bottom-left to top-right order with clampedSteps =
clamp(floor((v - 1) / (100 - 1) * 16), 0, 15), so that many pads end up
lit after a non-reset show call; zoom value 8 lights exactly the two
bottom-left pads 0x30 and 0x2C. -/
theorem c8_theorem (st : ZoomFeedbackState) (deck : ℕ) (v : ℚ) :
    ((showZoomFeedback st deck v).1.lit = zoomTarget v
      ∨ (showZoomFeedback st deck v).1.lit = st.lit)
    ∧ (zoomTarget v).card = (max 0 (min 15 ⌊(v - 1) / (100 - 1) * 16⌋)).toNat + 1
    ∧ zoomTarget v = ((getBottomLeftToTopRightOrder padGRID).take
        ((max 0 (min 15 ⌊(v - 1) / (100 - 1) * 16⌋)).toNat + 1)).toFinset
    ∧ (zoomTarget 8).card = 2
    ∧ zoomTarget 8 = ({0x30, 0x2C} : Finset ℕ) := by
  have hsteps : zoomSteps v = max 0 (min 15 ⌊(v - 1) / (100 - 1) * 16⌋) := rfl
  have h8 : zoomSteps 8 = 1 := by norm_num [zoomSteps, MIN_ZOOM, MAX_ZOOM]
  refine ⟨?_, ?_, ?_, ?_, ?_⟩
  · by_cases hc : st.active = true ∧ st.lastLevel = some (zoomSteps v) ∧ st.deck = some deck
    · right
      rw [showZoomFeedback, if_pos hc]
    · left
      rw [showZoomFeedback, if_neg hc]
  · have hnodup : (getBottomLeftToTopRightOrder padGRID).Nodup := by decide
    have hlen : (getBottomLeftToTopRightOrder padGRID).length = 16 := by decide
    have hle : zoomSteps v ≤ 15 := max_le (by norm_num) (min_le_left _ _)
    have hk : (zoomSteps v).toNat + 1 ≤ 16 := by omega
    rw [← hsteps]
    rw [zoomTarget, List.toFinset_card_of_nodup (List.Nodup.sublist (List.take_sublist _ _) hnodup)]
    rw [List.length_take, hlen]
    omega
  · rw [← hsteps]
    rfl
  · simp only [zoomTarget, h8]
    decide
  · simp only [zoomTarget, h8]
    decide

end MPD218
